import Mathlib

/-
Shallow embedding of the Mephisto provider-integration fragment:
  src/mephisto/abstractions/providers/prolific/prolific_utils.py
  src/mephisto/abstractions/providers/surge_ai/surge_ai_datastore.py

Remote API calls are modelled by client records whose fields give the
result of each remote operation; a `none` result models the uniform
remote exception (ProlificException).  Each embedded function returns,
besides its value, a `Calls` record counting how many list / retrieve /
create requests it issued, and uses `Except Unit` for propagated errors.
The SQLite tables of the Surge AI datastore are modelled as association
lists in insertion order; a uniqueness violation on insert corresponds
to the key already being present.
-/

/-! ## Prolific remote data models -/

/-- A remote Prolific workspace (api.data_models.Workspace). -/
structure Workspace where
  id : String
  title : String
  deriving DecidableEq, Repr

/-- A remote Prolific project (api.data_models.Project). -/
structure Project where
  id : String
  title : String
  deriving DecidableEq, Repr

/-- A remote Prolific participant group (api.data_models.ParticipantGroup). -/
structure ParticipantGroup where
  id : String
  name : String
  deriving DecidableEq, Repr

/-- Counts of remote requests issued during one embedded call. -/
structure Calls where
  lists : Nat
  retrieves : Nat
  creates : Nat
  deriving DecidableEq, Repr

/-- Componentwise sum of two request counts. -/
def Calls.add (a b : Calls) : Calls :=
  ⟨a.lists + b.lists, a.retrieves + b.retrieves, a.creates + b.creates⟩

/-- Python truthiness of an optional string: None and the empty string are falsy. -/
def pyTruthy : Option String → Bool
  | none => false
  | some s => s != ""

/-- The client.Workspaces surface: result of list(), retrieve(id), create(title).
A `none` result models a raised ProlificException. -/
structure WorkspacesAPI where
  list_result : Option (List Workspace)
  retrieve_result : String → Option Workspace
  create_result : String → Option Workspace

/-- The client.Projects surface, keyed by workspace id. -/
structure ProjectsAPI where
  list_for_workspace_result : String → Option (List Project)
  create_for_workspace_result : String → String → Option Project

/-- The client.ParticipantGroups surface, keyed by project id. -/
structure ParticipantGroupsAPI where
  list_result : String → Option (List ParticipantGroup)
  create_result : String → String → Option ParticipantGroup

/-! ## Reconciliation layer (prolific_utils.py) -/

/-- Embedding of `_find_prolific_workspace` (prolific_utils.py lines 91-115):
with a truthy id, retrieve by id, re-raising any failure; otherwise list all
workspaces and scan for the first title match, returning `(True, None)` when
the scan finds nothing. -/
def _find_prolific_workspace (client : WorkspacesAPI) (id : Option String)
    (title : String) : Calls × Except Unit (Bool × Option String) :=
  if pyTruthy id then
    match client.retrieve_result (id.getD "") with
    | some workspace => (⟨0, 1, 0⟩, .ok (true, some workspace.id))
    | none => (⟨0, 1, 0⟩, .error ())
  else
    match client.list_result with
    | none => (⟨1, 0, 0⟩, .error ())
    | some workspaces =>
      match workspaces.find? (fun workspace => workspace.title == title) with
      | some workspace => (⟨1, 0, 0⟩, .ok (true, some workspace.id))
      | none => (⟨1, 0, 0⟩, .ok (true, none))

/-- Embedding of `find_or_create_prolific_workspace` (lines 118-135): find,
return the found id as is; only on a not-found result call create. -/
def find_or_create_prolific_workspace (client : WorkspacesAPI)
    (id : Option String) (title : String) : Calls × Except Unit (Option String) :=
  match _find_prolific_workspace client id title with
  | (calls, .error e) => (calls, .error e)
  | (calls, .ok (found_workspace, workspace_id)) =>
    if found_workspace then (calls, .ok workspace_id)
    else
      match client.create_result title with
      | some workspace => (calls.add ⟨0, 0, 1⟩, .ok (some workspace.id))
      | none => (calls.add ⟨0, 0, 1⟩, .error ())

/-- Embedding of `_find_prolific_project` (lines 138-157): always list the
projects of the workspace, re-raising a list failure, then scan each project
for an id match (only when the id is truthy) or a title match; a full scan
with no match returns `(False, None)`. -/
def _find_prolific_project (client : ProjectsAPI) (workspace_id : String)
    (id : Option String) (title : String) : Calls × Except Unit (Bool × Option String) :=
  match client.list_for_workspace_result workspace_id with
  | none => (⟨1, 0, 0⟩, .error ())
  | some projects =>
    match projects.find? (fun project =>
        (pyTruthy id && project.id == id.getD "") || project.title == title) with
    | some project => (⟨1, 0, 0⟩, .ok (true, some project.id))
    | none => (⟨1, 0, 0⟩, .ok (false, none))

/-- Embedding of `find_or_create_prolific_project` (lines 160-181). -/
def find_or_create_prolific_project (client : ProjectsAPI) (workspace_id : String)
    (id : Option String) (title : String) : Calls × Except Unit (Option String) :=
  match _find_prolific_project client workspace_id id title with
  | (calls, .error e) => (calls, .error e)
  | (calls, .ok (found_project, project_id)) =>
    if found_project then (calls, .ok project_id)
    else
      match client.create_for_workspace_result workspace_id title with
      | some project => (calls.add ⟨0, 0, 1⟩, .ok (some project.id))
      | none => (calls.add ⟨0, 0, 1⟩, .error ())

/-- Embedding of `delete_qualification` (lines 184-190): the remote platform
has no delete for participant groups, so the function issues no request and
returns True. -/
def delete_qualification (client : ParticipantGroupsAPI) (id : String) : Calls × Bool :=
  (⟨0, 0, 0⟩, true)

/-- Embedding of `_find_qualification` (lines 193-211): list the participant
groups of the project, re-raising a list failure, then scan for the first
name match, returning `(True, None)` when the scan finds nothing. -/
def _find_qualification (client : ParticipantGroupsAPI)
    (prolific_project_id : String) (qualification_name : String) :
    Calls × Except Unit (Bool × Option String) :=
  match client.list_result prolific_project_id with
  | none => (⟨1, 0, 0⟩, .error ())
  | some qualifications =>
    match qualifications.find? (fun qualification =>
        qualification.name == qualification_name) with
    | some qualification => (⟨1, 0, 0⟩, .ok (true, some qualification.id))
    | none => (⟨1, 0, 0⟩, .ok (true, none))

/-- Embedding of `find_or_create_qualification` (lines 214-241). -/
def find_or_create_qualification (client : ParticipantGroupsAPI)
    (prolific_project_id : String) (qualification_name : String) :
    Calls × Except Unit (Option String) :=
  match _find_qualification client prolific_project_id qualification_name with
  | (calls, .error e) => (calls, .error e)
  | (calls, .ok (found_qualification, qualification_id)) =>
    if found_qualification then (calls, .ok qualification_id)
    else
      match client.create_result prolific_project_id qualification_name with
      | some qualification => (calls.add ⟨0, 0, 1⟩, .ok (some qualification.id))
      | none => (calls.add ⟨0, 0, 1⟩, .error ())

/-! ## Eligibility requirement translation and study creation -/

/-- A Python dict with string keys and values, as an association list. -/
abbrev PyDict := List (String × String)

/-- Modelled from the spec: the module `eligibility_requirement_classes`
(under the api package, absent from src/) is a registry of requirement
classes looked up by name; each class declares its parameter names via
`params()` and serializes a constructed instance via `to_prolific_dict()`.
The construction plus serialization of one class is modelled as a single
abstract function from the keyword arguments to the remote payload dict. -/
structure EligibilityRequirementClass where
  params : List String
  to_prolific_dict : PyDict → PyDict

/-- The registry of eligibility requirement classes, keyed by class name. -/
abbrev ErRegistry := List (String × EligibilityRequirementClass)

/-- The keyword arguments built for one class from one config entry
(prolific_utils.py lines 67-70): the declared parameters, in declaration
order, restricted to the keys present in the config dict. -/
def erClsKwargs (cls : EligibilityRequirementClass) (conf : PyDict) : PyDict :=
  cls.params.filterMap (fun param_name =>
    (conf.lookup param_name).map (fun v => (param_name, v)))

/-- Embedding of `_get_eligibility_requirements` (lines 60-73): for each
config entry, look its name up in the class registry; a missing registry
entry skips the config entry, a registered one contributes the serialized
instance built from the filtered keyword arguments.  A config entry with no
name key makes the getattr call raise (attribute name must be a string),
modelled as an error. -/
def _get_eligibility_requirements (registry : ErRegistry) :
    List PyDict → Except Unit (List PyDict)
  | [] => .ok []
  | conf :: rest =>
    match conf.lookup "name" with
    | none => .error ()
    | some name =>
      match registry.lookup name with
      | none => _get_eligibility_requirements registry rest
      | some cls =>
        match _get_eligibility_requirements registry rest with
        | .error e => .error e
        | .ok tail => .ok (cls.to_prolific_dict (erClsKwargs cls conf) :: tail)

/-- A remote Prolific user; only the balance field matters here. -/
structure ProlificUser where
  available_balance : Option ℚ

/-- The client.Users surface: result of me(). -/
structure UsersAPI where
  me_result : Option ProlificUser

/-- The fallback budget (prolific_utils.py line 31). -/
def DEFAULT_PROLIFIC_BUDGET : ℚ := 100000

/-- Python `x or d` on an optional number: None and 0 are falsy. -/
def pyOrRat : Option ℚ → ℚ → ℚ
  | none, d => d
  | some b, d => if b = 0 then d else b

/-- Embedding of `check_balance` (lines 76-88): fetch the user, re-raising
any failure, then return `user.available_balance or DEFAULT_PROLIFIC_BUDGET`. -/
def check_balance (client : UsersAPI) : Except Unit ℚ :=
  match client.me_result with
  | none => .error ()
  | some user => .ok (pyOrRat user.available_balance DEFAULT_PROLIFIC_BUDGET)

/-- Modelled from the spec: tag of api.constants.StudyCodeType (module absent
from src/); the layer only ever uses OTHER. -/
inductive StudyCodeType where
  | OTHER
  | COMPLETED
  deriving DecidableEq, Repr

/-- Modelled from the spec: tag of api.constants.StudyAction. -/
inductive StudyAction where
  | AUTOMATICALLY_APPROVE
  | MANUALLY_REVIEW
  deriving DecidableEq, Repr

/-- Modelled from the spec: tag of api.constants.StudyCompletionOption. -/
inductive StudyCompletionOption where
  | CODE
  | URL
  deriving DecidableEq, Repr

/-- One action attached to a completion code. -/
structure CompletionCodeAction where
  action : StudyAction
  deriving DecidableEq, Repr

/-- One completion code passed to Studies.create. -/
structure CompletionCode where
  code : String
  code_type : StudyCodeType
  actions : List CompletionCodeAction
  deriving DecidableEq, Repr

/-- The task section of the run configuration used by create_task. -/
structure TaskConfig where
  task_title : String
  task_description : String
  task_reward : ℚ

/-- The provider section of the run configuration used by create_task. -/
structure ProviderConfig where
  prolific_total_available_places : Nat
  prolific_estimated_completion_time_in_minutes : Nat
  prolific_external_study_url : String
  prolific_id_option : String
  prolific_eligibility_requirements : List PyDict

/-- The run configuration (DictConfig) fields read by create_task. -/
structure RunConfig where
  task : TaskConfig
  provider : ProviderConfig

/-- The keyword arguments of the client.Studies.create call. -/
structure StudyCreateParams where
  project : String
  name : String
  internal_name : String
  description : String
  external_study_url : String
  prolific_id_option : String
  completion_option : StudyCompletionOption
  completion_codes : List CompletionCode
  total_available_places : Nat
  estimated_completion_time : Nat
  reward : ℚ
  eligibility_requirements : List PyDict

/-- A remote Prolific study; only its id is read back. -/
structure Study where
  id : String

/-- The client.Studies surface: result of create(...). -/
structure StudiesAPI where
  create_result : StudyCreateParams → Option Study

/-- The Studies.create request assembled by `create_task` (prolific_utils.py
lines 244-287), including the hard-coded completion code list; translating
the eligibility requirement config can raise, which propagates. -/
def create_task_request (registry : ErRegistry) (run_config : RunConfig)
    (prolific_project_id : String) : Except Unit StudyCreateParams :=
  match _get_eligibility_requirements registry
      run_config.provider.prolific_eligibility_requirements with
  | .error e => .error e
  | .ok eligibility_requirements =>
    .ok {
      project := prolific_project_id
      name := run_config.task.task_title
      internal_name := run_config.task.task_title
      description := run_config.task.task_description
      external_study_url := run_config.provider.prolific_external_study_url
      prolific_id_option := run_config.provider.prolific_id_option
      completion_option := StudyCompletionOption.CODE
      completion_codes := [⟨"ABC123", StudyCodeType.OTHER,
        [⟨StudyAction.AUTOMATICALLY_APPROVE⟩]⟩]
      total_available_places := run_config.provider.prolific_total_available_places
      estimated_completion_time :=
        run_config.provider.prolific_estimated_completion_time_in_minutes
      reward := run_config.task.task_reward
      eligibility_requirements := eligibility_requirements
    }

/-- Embedding of `create_task` (lines 244-295): assemble the request, issue
the create call, re-raise any failure, and return the new study id. -/
def create_task (client : StudiesAPI) (registry : ErRegistry)
    (run_config : RunConfig) (prolific_project_id : String) : Except Unit String :=
  match create_task_request registry run_config prolific_project_id with
  | .error e => .error e
  | .ok params =>
    match client.create_result params with
    | some study => .ok study.id
    | none => .error ()

/-! ## Surge AI local datastore (surge_ai_datastore.py) -/

/-- A row of the qualifications table (the creation_date column, defaulted
by the database, plays no role in the modelled behaviour and is omitted). -/
structure QualRow where
  qualification_name : String
  requester_id : String
  surge_ai_qualification_name : String
  surge_ai_qualification_id : String
  deriving DecidableEq, Repr

/-- The qualifications table, rows in insertion order; the primary key on
qualification_name means an insert fails exactly when the key is present. -/
abbrev QualTable := List QualRow

/-- One warning logged by create_qualification_mapping. -/
inductive QualWarning where
  | requester_mismatch
  | remote_name_mismatch
  deriving DecidableEq, Repr

/-- Embedding of `get_qualification_mapping` (surge_ai_datastore.py lines
263-281): select the rows with the given name and return the first, or
nothing when there are none. -/
def get_qualification_mapping (table : QualTable)
    (qualification_name : String) : Option QualRow :=
  (table.filter (fun r => r.qualification_name == qualification_name)).head?

/-- Embedding of `create_qualification_mapping` (lines 283-346): try the
insert; on a uniqueness violation (the name is already present) re-read the
existing row, log a warning for a differing requester id and a differing
remote qualification name, and return successfully with the table unchanged.
Result: new table, warnings logged, and the call outcome. -/
def create_qualification_mapping (table : QualTable)
    (qualification_name requester_id : String)
    (surge_ai_qualification_name surge_ai_qualification_id : String) :
    QualTable × List QualWarning × Except Unit Unit :=
  if table.any (fun r => r.qualification_name == qualification_name) then
    match get_qualification_mapping table qualification_name with
    | none => (table, [], .error ())
    | some qual =>
      let w1 : List QualWarning :=
        if qual.requester_id != requester_id then [.requester_mismatch] else []
      let w2 : List QualWarning :=
        if qual.surge_ai_qualification_name != surge_ai_qualification_name
        then [.remote_name_mismatch] else []
      (table, w1 ++ w2, .ok ())
  else
    (table ++ [⟨qualification_name, requester_id,
      surge_ai_qualification_name, surge_ai_qualification_id⟩], [], .ok ())

/-- A row of the runs table (creation_date again omitted). -/
structure RunRow where
  run_id : String
  arn_id : String
  project_id : String
  project_config_path : String
  frame_height : Int
  deriving DecidableEq, Repr

/-- The runs table, rows in insertion order, primary key run_id. -/
abbrev RunsTable := List RunRow

/-- Embedding of `register_run` (lines 348-369): a plain insert with the
arn_id column fixed to the string unused; a duplicate run_id violates the
primary key and the error propagates, the connection context rolling the
statement back so the table is unchanged. -/
def register_run (table : RunsTable) (run_id project_id : String)
    (project_config_path : String) (frame_height : Int) :
    RunsTable × Except Unit Unit :=
  if table.any (fun r => r.run_id == run_id) then (table, .error ())
  else (table ++ [⟨run_id, "unused", project_id, project_config_path,
    frame_height⟩], .ok ())

/-- A boolean-flag table (requesters, workers or units): key and flag,
rows in insertion order, primary key on the key column. -/
abbrev FlagTable := List (String × Bool)

/-- Embedding of `ensure_requester_exists` (lines 103-116): INSERT OR IGNORE
of the row (requester_id, False). -/
def ensure_requester_exists (table : FlagTable) (requester_id : String) : FlagTable :=
  if table.any (fun r => r.1 == requester_id) then table
  else table ++ [(requester_id, false)]

/-- Embedding of `get_requester_registered` (lines 134-148): ensure the row
exists, select is_registered for the key, and read the first result row
(nothing would be an index error, hence the Option). -/
def get_requester_registered (table : FlagTable) (requester_id : String) :
    FlagTable × Option Bool :=
  let t := ensure_requester_exists table requester_id
  (t, ((t.filter (fun r => r.1 == requester_id)).head?).map (fun r => r.2))

/-- Embedding of `ensure_worker_exists` (lines 150-163). -/
def ensure_worker_exists (table : FlagTable) (worker_id : String) : FlagTable :=
  if table.any (fun r => r.1 == worker_id) then table
  else table ++ [(worker_id, false)]

/-- Embedding of `get_worker_blocked` (lines 181-195). -/
def get_worker_blocked (table : FlagTable) (worker_id : String) :
    FlagTable × Option Bool :=
  let t := ensure_worker_exists table worker_id
  (t, ((t.filter (fun r => r.1 == worker_id)).head?).map (fun r => r.2))

/-- Embedding of `ensure_unit_exists` (lines 197-210). -/
def ensure_unit_exists (table : FlagTable) (unit_id : String) : FlagTable :=
  if table.any (fun r => r.1 == unit_id) then table
  else table ++ [(unit_id, false)]

/-- Embedding of `get_unit_expired` (lines 228-242). -/
def get_unit_expired (table : FlagTable) (unit_id : String) :
    FlagTable × Option Bool :=
  let t := ensure_unit_exists table unit_id
  (t, ((t.filter (fun r => r.1 == unit_id)).head?).map (fun r => r.2))

/-! ## Claim theorems -/

/-- C1: with no workspace titled My Workspace, find_or_create_prolific_workspace
issues one list call and zero retrieve calls, but — because the title scan
returns found=True with no id — it issues zero create calls and returns no id
rather than creating the workspace: the create branch is unreachable for every
client, contradicting the claimed one-create-call behaviour. -/
theorem find_or_create_workspace_never_creates :
    (∀ (client : WorkspacesAPI) (id : Option String) (title : String),
      (find_or_create_prolific_workspace client id title).1.creates = 0) ∧
    find_or_create_prolific_workspace
      ⟨some [⟨"W1", "Another title"⟩], fun _ => none, fun t => some ⟨"W2", t⟩⟩
      none "My Workspace" = (⟨1, 0, 0⟩, .ok none) := by
  refine ⟨fun client id title => ?_, rfl⟩
  cases h : pyTruthy id
  · cases hl : client.list_result with
    | none => simp [find_or_create_prolific_workspace, _find_prolific_workspace, h, hl]
    | some workspaces =>
      cases hf : workspaces.find? (fun workspace => workspace.title == title) <;>
        simp [find_or_create_prolific_workspace, _find_prolific_workspace, h, hl, hf]
  · cases hr : client.retrieve_result (id.getD "") <;>
      simp [find_or_create_prolific_workspace, _find_prolific_workspace, h, hr]

/-- C2: whenever the title or name scan succeeds, the workspace and the
qualification finders report found=True even when nothing matched, and on a
concrete client whose list comes back empty both return (True, None) — not
the claimed found=False (the project finder alone returns False). -/
theorem scan_miss_reports_found :
    (∀ (client : WorkspacesAPI) (title : String),
      (match (_find_prolific_workspace client none title).2 with
       | .ok found_id => found_id.1
       | .error _ => true) = true) ∧
    (∀ (client : ParticipantGroupsAPI) (project_id qualification_name : String),
      (match (_find_qualification client project_id qualification_name).2 with
       | .ok found_id => found_id.1
       | .error _ => true) = true) ∧
    _find_prolific_workspace ⟨some [], fun _ => none, fun _ => none⟩ none "My Workspace"
      = (⟨1, 0, 0⟩, .ok (true, none)) ∧
    _find_qualification ⟨fun _ => some [], fun _ _ => none⟩ "P1" "qual-1"
      = (⟨1, 0, 0⟩, .ok (true, none)) := by
  refine ⟨fun client title => ?_, fun client project_id qualification_name => ?_, rfl, rfl⟩
  · cases hl : client.list_result with
    | none => simp [_find_prolific_workspace, pyTruthy, hl]
    | some workspaces =>
      cases hf : workspaces.find? (fun workspace => workspace.title == title) <;>
        simp [_find_prolific_workspace, pyTruthy, hl, hf]
  · cases hl : client.list_result project_id with
    | none => simp [_find_qualification, hl]
    | some qualifications =>
      cases hf : qualifications.find? (fun qualification =>
        qualification.name == qualification_name) <;>
        simp [_find_qualification, hl, hf]

/-- C3 counterexample: the project finder given an id hint that the remote
cannot serve performs no retrieval, raises nothing, and reports found=False —
a supplied id that cannot be retrieved is silently treated as absence,
refuting the claim for the project resource kind. -/
theorem find_project_id_hint_silent_absence :
    _find_prolific_project ⟨fun _ => some [], fun _ _ => none⟩ "WS1" (some "PROJ-X")
      "Project" = (⟨1, 0, 0⟩, .ok (false, none)) := rfl

/-- C3 amended: only the workspace finder retrieves a supplied (truthy) id
directly, issuing exactly one retrieve call and propagating its failure as an
error; the project finder instead lists the projects of the workspace and,
when no listed project matches the id or the title, reports found=False with
zero retrieve calls. -/
theorem find_by_id_workspace_retrieves_project_scans
    (wclient : WorkspacesAPI) (i wtitle : String) (hi : i ≠ "")
    (pclient : ProjectsAPI) (workspace_id pid ptitle : String)
    (projects : List Project)
    (hlist : pclient.list_for_workspace_result workspace_id = some projects)
    (hnomatch : ∀ p ∈ projects, p.id ≠ pid ∧ p.title ≠ ptitle) :
    _find_prolific_workspace wclient (some i) wtitle
      = (match wclient.retrieve_result i with
         | some w => (⟨0, 1, 0⟩, .ok (true, some w.id))
         | none => (⟨0, 1, 0⟩, .error ())) ∧
    _find_prolific_project pclient workspace_id (some pid) ptitle
      = (⟨1, 0, 0⟩, .ok (false, none)) := by
  constructor
  · have ht : pyTruthy (some i) = true := by simp [pyTruthy, hi]
    cases hr : wclient.retrieve_result i <;>
      simp [_find_prolific_workspace, ht, hr]
  · have hnone : projects.find? (fun project =>
        (pyTruthy (some pid) && project.id == pid)
          || project.title == ptitle) = none := by
      rw [List.find?_eq_none]
      intro p hp
      have h := hnomatch p hp
      simp [beq_eq_false_iff_ne.mpr h.1, beq_eq_false_iff_ne.mpr h.2]
    simp [_find_prolific_project, hlist, hnone]

/-- C3 amended witness at a concrete client pair. -/
theorem find_by_id_workspace_retrieves_project_scans_witness :
    _find_prolific_workspace ⟨some [], fun _ => some ⟨"W9", "T0"⟩, fun _ => none⟩
      (some "WID") "T1" = (⟨0, 1, 0⟩, .ok (true, some "W9")) ∧
    _find_prolific_project ⟨fun _ => some [⟨"p1", "t1"⟩], fun _ _ => none⟩
      "WS" (some "p2") "t2" = (⟨1, 0, 0⟩, .ok (false, none)) :=
  find_by_id_workspace_retrieves_project_scans
    ⟨some [], fun _ => some ⟨"W9", "T0"⟩, fun _ => none⟩ "WID" "T1" (by decide)
    ⟨fun _ => some [⟨"p1", "t1"⟩], fun _ _ => none⟩ "WS" "p2" "t2" [⟨"p1", "t1"⟩]
    rfl (by decide)

/-- C6: qualification deletion succeeds unconditionally and issues zero
remote requests, for every client and id. -/
theorem delete_qualification_succeeds_no_calls :
    ∀ (client : ParticipantGroupsAPI) (id : String),
      delete_qualification client id = (⟨0, 0, 0⟩, true) :=
  fun _ _ => rfl

/-- C4: creating a qualification mapping twice with identical arguments
inserts exactly one row and logs no warnings on either call; a second call
with the same name but a differing requester id leaves the stored row
unchanged, logs exactly the requester warning, and still succeeds. -/
theorem create_qualification_mapping_idempotent
    (t : QualTable) (name req sname sid req2 sid2 : String)
    (hfresh : ∀ r ∈ t, r.qualification_name ≠ name) (hreq : req2 ≠ req) :
    create_qualification_mapping t name req sname sid
      = (t ++ [⟨name, req, sname, sid⟩], [], .ok ()) ∧
    create_qualification_mapping (t ++ [⟨name, req, sname, sid⟩]) name req sname sid
      = (t ++ [⟨name, req, sname, sid⟩], [], .ok ()) ∧
    ((t ++ [⟨name, req, sname, sid⟩] : QualTable)).filter
        (fun r => r.qualification_name == name) = [⟨name, req, sname, sid⟩] ∧
    create_qualification_mapping (t ++ [⟨name, req, sname, sid⟩]) name req2 sname sid2
      = (t ++ [⟨name, req, sname, sid⟩], [.requester_mismatch], .ok ()) := by
  have hany : t.any (fun r => r.qualification_name == name) = false := by
    simp only [List.any_eq_false, beq_iff_eq]
    exact hfresh
  have hfilter : t.filter (fun r => r.qualification_name == name) = [] := by
    simp only [List.filter_eq_nil_iff, beq_iff_eq]
    exact hfresh
  have hany1 : (t ++ [(⟨name, req, sname, sid⟩ : QualRow)]).any
      (fun r => r.qualification_name == name) = true := by
    simp
  have hget : get_qualification_mapping (t ++ [⟨name, req, sname, sid⟩]) name
      = some ⟨name, req, sname, sid⟩ := by
    simp [get_qualification_mapping, List.filter_append, hfilter]
  refine ⟨?_, ?_, ?_, ?_⟩
  · simp [create_qualification_mapping, hany]
  · simp [create_qualification_mapping, hany1, hget]
  · simp [List.filter_append, hfilter]
  · simp [create_qualification_mapping, hany1, hget, hreq.symm]

/-- C4 witness at a concrete table and arguments. -/
theorem create_qualification_mapping_idempotent_witness :
    create_qualification_mapping [] "q" "r" "s" "1"
      = ([⟨"q", "r", "s", "1"⟩], [], .ok ()) ∧
    create_qualification_mapping [⟨"q", "r", "s", "1"⟩] "q" "r" "s" "1"
      = ([⟨"q", "r", "s", "1"⟩], [], .ok ()) ∧
    ([(⟨"q", "r", "s", "1"⟩ : QualRow)]).filter
        (fun r => r.qualification_name == "q") = [⟨"q", "r", "s", "1"⟩] ∧
    create_qualification_mapping [⟨"q", "r", "s", "1"⟩] "q" "r2" "s" "2"
      = ([⟨"q", "r", "s", "1"⟩], [.requester_mismatch], .ok ()) :=
  create_qualification_mapping_idempotent [] "q" "r" "s" "1" "r2" "2"
    (by simp) (by decide)

/-- C5: registering a run with a fresh id inserts its row; a second call
with the same run id fails with the uniqueness error, leaves the table
unchanged, and the single stored row for that id is the original one. -/
theorem register_run_duplicate_raises
    (t : RunsTable) (rid pid cfg : String) (fh : Int)
    (pid2 cfg2 : String) (fh2 : Int)
    (hfresh : ∀ r ∈ t, r.run_id ≠ rid) :
    register_run t rid pid cfg fh
      = (t ++ [⟨rid, "unused", pid, cfg, fh⟩], .ok ()) ∧
    register_run (t ++ [⟨rid, "unused", pid, cfg, fh⟩]) rid pid2 cfg2 fh2
      = (t ++ [⟨rid, "unused", pid, cfg, fh⟩], .error ()) ∧
    ((t ++ [⟨rid, "unused", pid, cfg, fh⟩] : RunsTable)).filter (fun r => r.run_id == rid)
      = [⟨rid, "unused", pid, cfg, fh⟩] := by
  have hany : t.any (fun r => r.run_id == rid) = false := by
    simp only [List.any_eq_false, beq_iff_eq]
    exact hfresh
  have hfilter : t.filter (fun r => r.run_id == rid) = [] := by
    simp only [List.filter_eq_nil_iff, beq_iff_eq]
    exact hfresh
  refine ⟨?_, ?_, ?_⟩
  · simp [register_run, hany]
  · simp [register_run]
  · simp [List.filter_append, hfilter]

/-- C5 witness at a concrete table and arguments. -/
theorem register_run_duplicate_raises_witness :
    register_run [] "run1" "proj1" "cfg1" 650
      = ([⟨"run1", "unused", "proj1", "cfg1", 650⟩], .ok ()) ∧
    register_run [⟨"run1", "unused", "proj1", "cfg1", 650⟩] "run1" "proj2" "cfg2" 0
      = ([⟨"run1", "unused", "proj1", "cfg1", 650⟩], .error ()) ∧
    ([(⟨"run1", "unused", "proj1", "cfg1", 650⟩ : RunRow)]).filter
        (fun r => r.run_id == "run1")
      = [⟨"run1", "unused", "proj1", "cfg1", 650⟩] :=
  register_run_duplicate_raises [] "run1" "proj1" "cfg1" 650 "proj2" "cfg2" 0
    (by simp)

/-- C8: on a key never written before, each flag getter first materializes
the row with its default and then reads it back, returning false rather
than failing on a missing row. -/
theorem get_flags_fresh_default_false
    (t1 t2 t3 : FlagTable) (k : String)
    (h1 : ∀ r ∈ t1, r.1 ≠ k) (h2 : ∀ r ∈ t2, r.1 ≠ k) (h3 : ∀ r ∈ t3, r.1 ≠ k) :
    get_requester_registered t1 k = (t1 ++ [(k, false)], some false) ∧
    get_worker_blocked t2 k = (t2 ++ [(k, false)], some false) ∧
    get_unit_expired t3 k = (t3 ++ [(k, false)], some false) := by
  have hany1 : t1.any (fun r => r.1 == k) = false := by
    simp only [List.any_eq_false, beq_iff_eq]
    exact h1
  have hf1 : t1.filter (fun r => r.1 == k) = [] := by
    simp only [List.filter_eq_nil_iff, beq_iff_eq]
    exact h1
  have hany2 : t2.any (fun r => r.1 == k) = false := by
    simp only [List.any_eq_false, beq_iff_eq]
    exact h2
  have hf2 : t2.filter (fun r => r.1 == k) = [] := by
    simp only [List.filter_eq_nil_iff, beq_iff_eq]
    exact h2
  have hany3 : t3.any (fun r => r.1 == k) = false := by
    simp only [List.any_eq_false, beq_iff_eq]
    exact h3
  have hf3 : t3.filter (fun r => r.1 == k) = [] := by
    simp only [List.filter_eq_nil_iff, beq_iff_eq]
    exact h3
  refine ⟨?_, ?_, ?_⟩
  · simp [get_requester_registered, ensure_requester_exists, hany1,
      List.filter_append, hf1]
  · simp [get_worker_blocked, ensure_worker_exists, hany2,
      List.filter_append, hf2]
  · simp [get_unit_expired, ensure_unit_exists, hany3,
      List.filter_append, hf3]

/-- C8 witness at a concrete fresh key. -/
theorem get_flags_fresh_default_false_witness :
    get_requester_registered [] "k1" = ([("k1", false)], some false) ∧
    get_worker_blocked [] "k1" = ([("k1", false)], some false) ∧
    get_unit_expired [] "k1" = ([("k1", false)], some false) :=
  get_flags_fresh_default_false [] [] [] "k1" (by simp) (by simp) (by simp)

/-- C9: check_balance returns the available balance when it is nonzero and
the default budget when the balance is missing or exactly zero. -/
theorem check_balance_falsy_default (client : UsersAPI) (user : ProlificUser)
    (hme : client.me_result = some user) :
    ((user.available_balance = none ∨ user.available_balance = some 0) →
      check_balance client = .ok DEFAULT_PROLIFIC_BUDGET) ∧
    (∀ b : ℚ, user.available_balance = some b → b ≠ 0 →
      check_balance client = .ok b) := by
  constructor
  · rintro (h | h) <;> simp [check_balance, hme, pyOrRat, h]
  · intro b hb hb0
    simp [check_balance, hme, pyOrRat, hb, hb0]

/-- C9 witness: a user whose remote balance is exactly 0 is reported as
having the default budget. -/
theorem check_balance_falsy_default_witness :
    check_balance ⟨some ⟨some 0⟩⟩ = .ok DEFAULT_PROLIFIC_BUDGET :=
  (check_balance_falsy_default ⟨some ⟨some 0⟩⟩ ⟨some 0⟩ rfl).1 (Or.inr rfl)

/-- C7: a config entry whose name is not registered is dropped from the
translated list without an error, and every keyword argument passed to a
registered class comes from a key that is both a declared parameter of the
class and present in the config dict, bound to the value stored there. -/
theorem eligibility_unknown_dropped_params_filtered
    (registry : ErRegistry) (pre post : List PyDict) (conf : PyDict) (name : String)
    (hname : conf.lookup "name" = some name) (hmiss : registry.lookup name = none) :
    _get_eligibility_requirements registry (pre ++ conf :: post)
      = _get_eligibility_requirements registry (pre ++ post) ∧
    ∀ (cls : EligibilityRequirementClass) (c : PyDict) (kv : String × String),
      kv ∈ erClsKwargs cls c → kv.1 ∈ cls.params ∧ c.lookup kv.1 = some kv.2 := by
  constructor
  · induction pre with
    | nil => simp [_get_eligibility_requirements, hname, hmiss]
    | cons c pre ih =>
      cases hc : c.lookup "name" with
      | none => simp [_get_eligibility_requirements, hc]
      | some n =>
        cases hr : registry.lookup n with
        | none => simpa [_get_eligibility_requirements, hc, hr] using ih
        | some cls => simp [_get_eligibility_requirements, hc, hr, ih]
  · intro cls c kv hkv
    rw [erClsKwargs, List.mem_filterMap] at hkv
    obtain ⟨p, hp, hval⟩ := hkv
    cases hl : c.lookup p with
    | none => rw [hl] at hval; cases hval
    | some v =>
      rw [hl] at hval
      cases hval
      exact ⟨hp, hl⟩

/-- C7 witness: a registry knowing one class and a config list holding one
entry with an unregistered name translate to the same output as the empty
config list. -/
theorem eligibility_unknown_dropped_params_filtered_witness :
    _get_eligibility_requirements [("KnownReq", ⟨["p1"], fun kw => kw⟩)]
        ([] ++ [("name", "UnknownReq")] :: [])
      = _get_eligibility_requirements [("KnownReq", ⟨["p1"], fun kw => kw⟩)]
        ([] ++ []) :=
  (eligibility_unknown_dropped_params_filtered
    [("KnownReq", ⟨["p1"], fun kw => kw⟩)] [] [] [("name", "UnknownReq")]
    "UnknownReq" rfl rfl).1

/-- C10: every successfully assembled Studies.create request carries the
hard-coded completion code list — one code ABC123 of type OTHER with the
single action AUTOMATICALLY_APPROVE — and an internal name equal to the
configured task title. -/
theorem create_task_fixed_codes_and_internal_name
    (registry : ErRegistry) (run_config : RunConfig) (prolific_project_id : String)
    (params : StudyCreateParams)
    (hok : create_task_request registry run_config prolific_project_id = .ok params) :
    params.completion_codes
      = [⟨"ABC123", StudyCodeType.OTHER, [⟨StudyAction.AUTOMATICALLY_APPROVE⟩]⟩] ∧
    params.internal_name = run_config.task.task_title := by
  rw [create_task_request] at hok
  cases hel : _get_eligibility_requirements registry
      run_config.provider.prolific_eligibility_requirements with
  | error e => rw [hel] at hok; cases hok
  | ok l =>
    rw [hel] at hok
    cases hok
    exact ⟨rfl, rfl⟩

/-- C10 witness at a concrete run configuration. -/
theorem create_task_fixed_codes_and_internal_name_witness :
    (⟨"P0", "T0", "T0", "D0", "U0", "I0", .CODE,
        [⟨"ABC123", .OTHER, [⟨.AUTOMATICALLY_APPROVE⟩]⟩], 10, 7, 5, []⟩ :
      StudyCreateParams).completion_codes
      = [⟨"ABC123", StudyCodeType.OTHER, [⟨StudyAction.AUTOMATICALLY_APPROVE⟩]⟩] ∧
    (⟨"P0", "T0", "T0", "D0", "U0", "I0", .CODE,
        [⟨"ABC123", .OTHER, [⟨.AUTOMATICALLY_APPROVE⟩]⟩], 10, 7, 5, []⟩ :
      StudyCreateParams).internal_name
      = (⟨⟨"T0", "D0", 5⟩, ⟨10, 7, "U0", "I0", []⟩⟩ : RunConfig).task.task_title :=
  create_task_fixed_codes_and_internal_name []
    ⟨⟨"T0", "D0", 5⟩, ⟨10, 7, "U0", "I0", []⟩⟩ "P0"
    ⟨"P0", "T0", "T0", "D0", "U0", "I0", .CODE,
      [⟨"ABC123", .OTHER, [⟨.AUTOMATICALLY_APPROVE⟩]⟩], 10, 7, 5, []⟩ rfl
